import Mathlib

set_option autoImplicit false

/-! Formal model of the DRM/GBM direct-to-display backend of apitrace's
    glws layer: the lazily-built framebuffer cache (drm_fb_get_from_bo and
    drm_fb_destroy_callback in glws_drm.hpp), the atomic committer
    (drm_atomic_commit, add_plane_property, add_crtc_property,
    add_connector_property) and the per-frame swap pipeline
    (EglDrawable::show and EglDrawable::swapBuffers).  Each C function is
    embedded as a pure Lean function over explicit state; results of
    kernel and driver calls are supplied by oracle records, and the
    externally observable calls performed by a function are returned as an
    explicit action log. -/

/-! ### Framebuffer cache: drm_fb_get_from_bo / drm_fb_destroy_callback -/

/-- struct drm_fb { struct gbm_bo *bo; uint32_t fb_id; } : the presentation
    handle attached to a buffer object, holding the kernel framebuffer id. -/
structure DrmFbRec where
  boId : Nat
  fb_id : Nat
  deriving DecidableEq

/-- A gbm buffer object, with the fields drm_fb_get_from_bo queries
    (width/height/format, per-plane handles/strides/offsets, the buffer
    modifier) plus the user-data slot read by gbm_bo_get_user_data and
    written by gbm_bo_set_user_data, where the created drm_fb is cached. -/
structure GbmBo where
  boId : Nat
  width : Nat
  height : Nat
  format : Nat
  modifier : Nat
  planeCount : Nat
  planeHandles : List Nat
  planeStrides : List Nat
  planeOffsets : List Nat
  legacyHandle : Nat
  legacyStride : Nat
  userData : Option DrmFbRec
  deriving DecidableEq

/-- Externally observable actions of the framebuffer cache: the two kernel
    framebuffer-creation entry points, the stderr warning on a failed
    modifier-aware attempt, the failure log, attaching the handle to the
    buffer (which also registers the destroy callback), freeing the record,
    and drmModeRmFB at teardown. -/
inductive FbAct where
  | addFB2WithModifiers (flags : Nat)
  | addFB2
  | warnModifiersFailed
  | logCreateFailed
  | setUserData
  | freeFb
  | rmFB (id : Nat)
  deriving DecidableEq

/-- Oracle for the kernel framebuffer-creation calls: the fb_id the kernel
    writes on success, or none when the call fails. -/
structure FbKernel where
  withModRes : Option Nat
  legacyRes : Option Nat
  deriving DecidableEq

/-- DRM_MODE_FB_MODIFIERS, the flag passed to drmModeAddFB2WithModifiers
    when the buffer carries a non-trivial modifier. -/
def DRM_MODE_FB_MODIFIERS : Nat := 2

/-- drm_fb_get_from_bo (glws_drm.hpp, lines 151-212).  A cached handle is
    returned at once with no kernel call.  Otherwise the per-plane layout is
    derived and creation is attempted with drmModeAddFB2WithModifiers, with
    flags = DRM_MODE_FB_MODIFIERS exactly when modifiers[0] is non-zero; on
    failure a "Modifiers failed!" warning is printed when flags were set and
    the legacy drmModeAddFB2 single-plane path is retried; if that also fails
    the record is freed and NULL returned.  On success the handle is attached
    with gbm_bo_set_user_data, registering drm_fb_destroy_callback. -/
def drm_fb_get_from_bo (bo : GbmBo) (k : FbKernel) :
    Option DrmFbRec × GbmBo × List FbAct :=
  match bo.userData with
  | some fb => (some fb, bo, [])
  | none =>
    let flags := if bo.modifier ≠ 0 then DRM_MODE_FB_MODIFIERS else 0
    match k.withModRes with
    | some i =>
      let fb : DrmFbRec := ⟨bo.boId, i⟩
      (some fb, { bo with userData := some fb },
        [FbAct.addFB2WithModifiers flags, FbAct.setUserData])
    | none =>
      let warn := if flags ≠ 0 then [FbAct.warnModifiersFailed] else []
      match k.legacyRes with
      | some i =>
        let fb : DrmFbRec := ⟨bo.boId, i⟩
        (some fb, { bo with userData := some fb },
          FbAct.addFB2WithModifiers flags :: warn ++ [FbAct.addFB2, FbAct.setUserData])
      | none =>
        (none, bo,
          FbAct.addFB2WithModifiers flags ::
            warn ++ [FbAct.addFB2, FbAct.logCreateFailed, FbAct.freeFb])

/-- drm_fb_destroy_callback (glws_drm.hpp, lines 140-149): remove the kernel
    framebuffer if one was created, then free the record. -/
def drm_fb_destroy_callback (fb : DrmFbRec) : List FbAct :=
  (if fb.fb_id ≠ 0 then [FbAct.rmFB fb.fb_id] else []) ++ [FbAct.freeFb]

/-- Destruction of a gbm buffer object.  gbm invokes the destroy callback
    registered through gbm_bo_set_user_data exactly once, on the stored
    data, when the buffer object is destroyed; drm_fb_get_from_bo registers
    drm_fb_destroy_callback together with the cached handle, so the callback
    runs precisely when user data is attached. -/
def destroyGbmBo (bo : GbmBo) : List FbAct :=
  match bo.userData with
  | some fb => drm_fb_destroy_callback fb
  | none => []

/-- A sequence of drm_fb_get_from_bo calls on the same buffer object,
    threading the buffer state and concatenating the action logs. -/
def resolveList (bo : GbmBo) : List FbKernel → GbmBo × List FbAct
  | [] => (bo, [])
  | k :: ks =>
    let r := drm_fb_get_from_bo bo k
    let rest := resolveList r.2.1 ks
    (rest.1, r.2.2 ++ rest.2)

/-- Number of kernel framebuffer-creation calls in an action log. -/
def kernelCreateCalls : List FbAct → Nat
  | [] => 0
  | FbAct.addFB2WithModifiers _ :: r => kernelCreateCalls r + 1
  | FbAct.addFB2 :: r => kernelCreateCalls r + 1
  | _ :: r => kernelCreateCalls r

/-- The framebuffer ids passed to drmModeRmFB in an action log. -/
def rmFBIds : List FbAct → List Nat
  | [] => []
  | FbAct.rmFB i :: r => i :: rmFBIds r
  | _ :: r => rmFBIds r

/-- Number of gbm_bo_set_user_data registrations in an action log. -/
def setUserDataCount : List FbAct → Nat
  | [] => 0
  | FbAct.setUserData :: r => setUserDataCount r + 1
  | _ :: r => setUserDataCount r

/-! ### Atomic committer: drm_atomic_commit and the property helpers -/

/-- The DRM property names the committer references. -/
inductive PName where
  | FB_ID
  | CRTC_ID
  | SRC_X
  | SRC_Y
  | SRC_W
  | SRC_H
  | CRTC_X
  | CRTC_Y
  | CRTC_W
  | CRTC_H
  | MODE_ID
  | ACTIVE
  | OUT_FENCE_PTR
  | IN_FENCE_FD
  deriving DecidableEq

/-- The three kinds of kernel display objects addressed by the committer. -/
inductive KObj where
  | plane
  | crtc
  | connector
  deriving DecidableEq

/-- Linear scan of a per-object property table for a name, returning the
    first matching property id (the props_info loop shared by
    add_plane_property, add_crtc_property and add_connector_property). -/
def findPropId : List (PName × Nat) → PName → Option Nat
  | [], _ => none
  | (n, pid) :: rest, name => if n = name then some pid else findPropId rest name

/-- The committer's static environment (the global struct drm: property
    tables, object ids, the chosen mode's dimensions) together with oracles
    for the two kernel calls drm_atomic_commit makes: property-blob creation
    and the atomic-commit ioctl itself. -/
structure CommitEnv where
  planeProps : List (PName × Nat)
  crtcProps : List (PName × Nat)
  connProps : List (PName × Nat)
  plane_id : Nat
  crtc_id : Nat
  connector_id : Nat
  hdisplay : Nat
  vdisplay : Nat
  blobRes : Option Nat
  ioctlOk : Bool
  deriving DecidableEq

/-- One property added to an atomic request: object kind, property id,
    value. -/
abbrev ReqEntry := KObj × Nat × Nat

/-- add_plane_property (part_000, lines 137-158): prop_id starts at -1, so a
    name missing from the plane table is reported ("no plane property") and
    -EINVAL is returned without touching the request. -/
def add_plane_property (env : CommitEnv) (req : List ReqEntry) (name : PName)
    (value : Nat) : Int × List ReqEntry :=
  match findPropId env.planeProps name with
  | some pid => (0, req ++ [(KObj.plane, pid, value)])
  | none => (-22, req)

/-- add_crtc_property (part_000, lines 115-135): same shape as the plane
    helper, against the crtc table. -/
def add_crtc_property (env : CommitEnv) (req : List ReqEntry) (name : PName)
    (value : Nat) : Int × List ReqEntry :=
  match findPropId env.crtcProps name with
  | some pid => (0, req ++ [(KObj.crtc, pid, value)])
  | none => (-22, req)

/-- add_connector_property (part_000, lines 160-180): unlike the other two
    helpers, prop_id is initialized to 0, not -1, so when the name is missing
    the (prop_id < 0) check never fires: no error is reported and the
    property is added to the request with the bogus property id 0. -/
def add_connector_property (env : CommitEnv) (req : List ReqEntry) (name : PName)
    (value : Nat) : Int × List ReqEntry :=
  match findPropId env.connProps name with
  | some pid => (0, req ++ [(KObj.connector, pid, value)])
  | none => (0, req ++ [(KObj.connector, 0, value)])

/-- Result of drm_atomic_commit: the returned code, whether the
    drmModeAtomicCommit ioctl was actually submitted, the request contents,
    and the in-fence fd the caller is left holding afterwards. -/
structure CommitRes where
  ret : Int
  submitted : Bool
  req : List ReqEntry
  kms_in_fence : Option Nat
  deriving DecidableEq

/-- The unconditional tail of drm_atomic_commit (part_000, lines 209-238):
    the ten plane geometry properties are added with their return values
    ignored; when an in-fence fd is held, OUT_FENCE_PTR (whose value is the
    address of kms_out_fence_fd, modelled as 0) and IN_FENCE_FD are added,
    also with return values ignored; the ioctl is then submitted, and only
    on success is the in-fence fd closed and the stored copy reset to -1. -/
def drm_atomic_commit_rest (env : CommitEnv) (fb_id : Nat) (req0 : List ReqEntry)
    (inFence : Option Nat) : CommitRes :=
  let req := (add_plane_property env req0 PName.FB_ID fb_id).2
  let req := (add_plane_property env req PName.CRTC_ID env.crtc_id).2
  let req := (add_plane_property env req PName.SRC_X 0).2
  let req := (add_plane_property env req PName.SRC_Y 0).2
  let req := (add_plane_property env req PName.SRC_W (env.hdisplay * 65536)).2
  let req := (add_plane_property env req PName.SRC_H (env.vdisplay * 65536)).2
  let req := (add_plane_property env req PName.CRTC_X 0).2
  let req := (add_plane_property env req PName.CRTC_Y 0).2
  let req := (add_plane_property env req PName.CRTC_W env.hdisplay).2
  let req := (add_plane_property env req PName.CRTC_H env.vdisplay).2
  let req :=
    match inFence with
    | some ifd =>
      let req := (add_crtc_property env req PName.OUT_FENCE_PTR 0).2
      (add_plane_property env req PName.IN_FENCE_FD ifd).2
    | none => req
  if env.ioctlOk then
    { ret := 0, submitted := true, req := req, kms_in_fence := none }
  else
    { ret := -1, submitted := true, req := req, kms_in_fence := inFence }

/-- drm_atomic_commit (part_000, lines 184-239).  When the modeset flag is
    set, connector CRTC_ID is added first (its guard can never fire, see
    add_connector_property), then the mode blob is created and crtc MODE_ID
    and ACTIVE are added, each guarded: a blob failure or a crtc-table miss
    returns -1 before the ioctl is reached. -/
def drm_atomic_commit (env : CommitEnv) (fb_id : Nat) (allowModeset : Bool)
    (inFence : Option Nat) : CommitRes :=
  if allowModeset then
    let c := add_connector_property env [] PName.CRTC_ID env.crtc_id
    if c.1 < 0 then
      { ret := -1, submitted := false, req := c.2, kms_in_fence := inFence }
    else
      match env.blobRes with
      | none => { ret := -1, submitted := false, req := c.2, kms_in_fence := inFence }
      | some blob =>
        let m := add_crtc_property env c.2 PName.MODE_ID blob
        if m.1 < 0 then
          { ret := -1, submitted := false, req := m.2, kms_in_fence := inFence }
        else
          let a := add_crtc_property env m.2 PName.ACTIVE 1
          if a.1 < 0 then
            { ret := -1, submitted := false, req := a.2, kms_in_fence := inFence }
          else
            drm_atomic_commit_rest env fb_id a.2 inFence
  else
    drm_atomic_commit_rest env fb_id [] inFence

/-! ### Per-frame swap pipeline: EglDrawable::show / EglDrawable::swapBuffers

    The chain-surface mode (gbm->surface non-null) is modelled: the next
    buffer comes from gbm_surface_lock_front_buffer and release goes through
    gbm_surface_release_buffer.  Time stamps and the FPS report (which touch
    no claim-relevant state) are omitted; create_fence and
    eglDupNativeFenceFDANDROID are assumed to succeed, matching the asserts
    in the source. -/

/-- The EglDrawable / struct drm state the swap pipeline reads and writes:
    visibility, the DRM_MODE_ATOMIC_ALLOW_MODESET bit of the commit flags,
    the frame counter, the currently displayed buffer object, and the two
    fence fds of struct drm (none standing for -1). -/
structure Chain where
  visible : Bool
  modeset : Bool
  frame_count : Nat
  bo : Option Nat
  kms_in_fence : Option Nat
  kms_out_fence : Option Nat
  deriving DecidableEq

/-- Session start: not visible, plain DRM_MODE_ATOMIC_NONBLOCK flags, no
    frame shown, no displayed buffer, no fences outstanding. -/
def Chain.init : Chain :=
  { visible := false, modeset := false, frame_count := 0,
    bo := none, kms_in_fence := none, kms_out_fence := none }

/-- Per-call oracle for swapBuffers: the gpu-fence fd duplicated for the
    commit, the result of locking the front buffer (none = failure), the
    outcome of drm_fb_get_from_bo, the resolved framebuffer id, whether
    poll reported pending user input, the atomic-commit outcome, and the
    out-fence fd the kernel writes on a successful commit. -/
structure SwapIn where
  inFenceFd : Nat
  nextBo : Option Nat
  fbOk : Bool
  fbId : Nat
  userInput : Bool
  commitOk : Bool
  outFenceFd : Nat
  deriving DecidableEq

/-- Oracle for show(): whether EGL_ANDROID_native_fence_sync is advertised,
    and whether the five fence entry points all resolved. -/
structure ShowIn where
  fenceExtOk : Bool
  fnsOk : Bool
  deriving DecidableEq

/-- Externally observable actions of one show/swapBuffers call. -/
inductive Act where
  | showComplete
  | importFence (f : Nat)
  | gpuWait (f : Nat)
  | clientWait (f : Nat)
  | destroySync (f : Nat)
  | lockBuf (b : Nat)
  | commit (fbId : Nat) (allowModeset : Bool) (ok : Bool) (outFence : Option Nat)
  | releaseBuf (b : Nat)
  | setDisplayed (b : Nat)
  deriving DecidableEq

/-- EglDrawable::show (part_000, lines 350-379): a no-op when already
    visible; return early when the native-fence extension or any of the
    fence entry points is missing; otherwise set
    DRM_MODE_ATOMIC_ALLOW_MODESET in the commit flags and become visible. -/
def showStep (s : Chain) (o : ShowIn) : Chain × List Act :=
  if s.visible then (s, [])
  else if o.fenceExtOk = false then (s, [])
  else if o.fnsOk = false then (s, [])
  else ({ s with modeset := true, visible := true }, [Act.showComplete])

/-- EglDrawable::swapBuffers (part_000, lines 381-508), in source order:
    lines 388-401 import the previous commit's out-fence when one is
    pending, reset the stored fd to -1 and issue a gpu-side wait on it;
    line 415 advances the frame counter; lines 422-435 create the gpu fence
    and store its fd as the commit in-fence; lines 437-445 lock the next
    front buffer, skipping the frame on failure; lines 446-450 resolve the
    presentation handle, skipping on failure; lines 452-468 busy-wait the
    imported fence to signaled state on the CPU and destroy it; lines
    480-489 skip the frame when user input is pending; line 495 submits the
    atomic commit with the current flags (on success drm_atomic_commit
    closes the in-fence fd and resets it, and the kernel writes the
    out-fence fd); lines 501-507 release the previously displayed buffer,
    record the new one, and clear the modeset bit. -/
def swapBuffersStep (s : Chain) (o : SwapIn) : Chain × List Act :=
  let imported := s.kms_out_fence
  let log0 : List Act :=
    match imported with
    | some f => [Act.importFence f, Act.gpuWait f]
    | none => []
  let s1 : Chain :=
    { s with kms_out_fence := none,
             frame_count := s.frame_count + 1,
             kms_in_fence := some o.inFenceFd }
  match o.nextBo with
  | none => (s1, log0)
  | some nb =>
    let log1 := log0 ++ [Act.lockBuf nb]
    if o.fbOk = false then (s1, log1)
    else
      let log2 := log1 ++
        (match imported with
         | some f => [Act.clientWait f, Act.destroySync f]
         | none => [])
      if o.userInput then (s1, log2)
      else
        let log3 := log2 ++ [Act.commit o.fbId s1.modeset o.commitOk
          (if o.commitOk then some o.outFenceFd else none)]
        if o.commitOk = false then (s1, log3)
        else
          let s2 : Chain :=
            { s1 with kms_in_fence := none,
                      kms_out_fence := some o.outFenceFd,
                      bo := some nb,
                      modeset := false }
          match s1.bo with
          | some old => (s2, log3 ++ [Act.releaseBuf old, Act.setDisplayed nb])
          | none => (s2, log3 ++ [Act.setDisplayed nb])

/-- One driver event: a show() call or a swapBuffers() call. -/
inductive Ev where
  | evShow (o : ShowIn)
  | evSwap (o : SwapIn)
  deriving DecidableEq

/-- Run a session: fold the events over the state, concatenating logs. -/
def runEvs : Chain → List Ev → Chain × List Act
  | s, [] => (s, [])
  | s, e :: rest =>
    let r :=
      match e with
      | Ev.evShow o => showStep s o
      | Ev.evSwap o => swapBuffersStep s o
    let rr := runEvs r.1 rest
    (rr.1, r.2 ++ rr.2)

/-- The swapBuffers oracles of a session, in order. -/
def swapOracles : List Ev → List SwapIn
  | [] => []
  | Ev.evSwap o :: rest => o :: swapOracles rest
  | _ :: rest => swapOracles rest

/-- The buffers released back to the surface in a log. -/
def releasedBos (l : List Act) : List Nat :=
  l.filterMap fun a =>
    match a with
    | Act.releaseBuf b => some b
    | _ => none

/-- The buffers recorded as currently displayed in a log. -/
def displayedBos (l : List Act) : List Nat :=
  l.filterMap fun a =>
    match a with
    | Act.setDisplayed b => some b
    | _ => none

/-- A swapBuffers call reaches the success path: the lock succeeds, the
    handle resolves, no user input interrupts, and the commit is accepted. -/
def reachesSuccess (o : SwapIn) : Bool :=
  o.nextBo.isSome && o.fbOk && !o.userInput && o.commitOk

/-- A swapBuffers call that locks a front buffer but then skips the frame:
    handle resolution fails, user input is pending, or the commit fails. -/
def skipsAfterLock (o : SwapIn) : Bool :=
  o.nextBo.isSome && (!o.fbOk || o.userInput || !o.commitOk)

/-- Outstanding display-fence checker.  It threads the fence produced by
    the most recent successful commit and not yet waited to signaled state;
    a commit act while such a fence is pending is the violation (the claim's
    "two outstanding commits"), reported as none. -/
def chkGo : Option Nat → List Act → Option (Option Nat)
  | p, [] => some p
  | p, x :: rest =>
    match x with
    | Act.clientWait f => chkGo (if p = some f then none else p) rest
    | Act.commit _ _ ok of =>
      match p with
      | some _ => none
      | none => chkGo (if ok then of else none) rest
    | _ => chkGo p rest

/-- Modeset-flag pattern checker for a session whose show() completed before
    any commit: every commit must carry the expected flag value, which
    starts true and drops to false permanently at the first successful
    commit; a mismatch is reported as none. -/
def c2go : Bool → List Act → Option Bool
  | exp, [] => some exp
  | exp, x :: rest =>
    match x with
    | Act.commit _ ms ok _ => if ms = exp then c2go (exp && !ok) rest else none
    | _ => c2go exp rest

/-- Modeset gating checker: a commit may carry the modeset flag exactly when
    show() has completed and no commit has succeeded since; the permission
    bit starts false, is set by showComplete and cleared by a successful
    commit.  A commit whose flag differs from the permission bit is the
    violation, reported as none. -/
def c10go : Bool → List Act → Option Bool
  | a, [] => some a
  | a, x :: rest =>
    match x with
    | Act.showComplete => c10go true rest
    | Act.commit _ ms ok _ => if ms = a then c10go (a && !ok) rest else none
    | _ => c10go a rest

/-! ### Concrete inputs used by counterexamples and witnesses -/

/-- A fresh linear-modifier buffer object. -/
def boW : GbmBo :=
  { boId := 3, width := 1920, height := 1080, format := 875713112,
    modifier := 0, planeCount := 1, planeHandles := [4], planeStrides := [7680],
    planeOffsets := [0], legacyHandle := 4, legacyStride := 7680, userData := none }

/-- A fresh buffer object carrying a non-trivial modifier. -/
def boWmod : GbmBo := { boW with modifier := 3 }

/-- A committer environment whose plane and connector tables are empty while
    the crtc table has the two modeset properties. -/
def envC3 : CommitEnv :=
  { planeProps := [], crtcProps := [(PName.MODE_ID, 7), (PName.ACTIVE, 8)],
    connProps := [], plane_id := 31, crtc_id := 41, connector_id := 51,
    hdisplay := 1920, vdisplay := 1080, blobRes := some 99, ioctlOk := true }

/-- A committer environment whose crtc table is missing MODE_ID. -/
def envC3w : CommitEnv :=
  { envC3 with crtcProps := [(PName.ACTIVE, 8)], planeProps := [(PName.FB_ID, 1)] }

/-- A show() call with the fence extension and entry points available. -/
def showOk : ShowIn := ⟨true, true⟩

/-- A fully successful swapBuffers call. -/
def swA : SwapIn := ⟨10, some 1, true, 100, false, true, 50⟩

/-- A second fully successful swapBuffers call. -/
def swB : SwapIn := ⟨11, some 2, true, 101, false, true, 51⟩

/-- A swapBuffers call that fails to lock a front buffer. -/
def swLockFail : SwapIn := ⟨12, none, true, 0, false, true, 0⟩

/-- A swapBuffers call that locks buffer 4 but fails handle resolution. -/
def swFbFail : SwapIn := ⟨13, some 4, false, 0, false, true, 0⟩

/-- A swapBuffers call that reaches the commit and has it rejected. -/
def swCommitFail : SwapIn := ⟨14, some 5, true, 104, false, false, 0⟩

/-- Session showing the C1 violation: a successful commit, then a frame
    skipped at buffer-lock time after importing the commit's out-fence,
    then another successful commit submitted with no CPU fence wait. -/
def evsC1bad : List Ev := [Ev.evShow showOk, Ev.evSwap swA, Ev.evSwap swLockFail, Ev.evSwap swB]

/-- A clean two-frame session. -/
def evsOkTwo : List Ev := [Ev.evShow showOk, Ev.evSwap swA, Ev.evSwap swB]

/-- Session for the C9 witness: buffer 4 is locked by a call that skips
    its frame at handle resolution; no other call ever locks buffer 4. -/
def evsC9w : List Ev := [Ev.evShow showOk, Ev.evSwap swA, Ev.evSwap swFbFail, Ev.evSwap swB]

/-! ### Helper lemmas: framebuffer cache -/

theorem resolve_cached (bo : GbmBo) (fb : DrmFbRec) (k : FbKernel)
    (h : bo.userData = some fb) :
    drm_fb_get_from_bo bo k = (some fb, bo, []) := by
  simp [drm_fb_get_from_bo, h]

theorem resolveList_cached (ks : List FbKernel) (bo : GbmBo) (fb : DrmFbRec)
    (h : bo.userData = some fb) :
    resolveList bo ks = (bo, []) := by
  induction ks with
  | nil => simp [resolveList]
  | cons k ks ih => simp [resolveList, resolve_cached bo fb k h, ih]

theorem resolve_fresh_success (bo : GbmBo) (k : FbKernel) (fb : DrmFbRec)
    (h0 : bo.userData = none)
    (h1 : (drm_fb_get_from_bo bo k).1 = some fb) :
    (drm_fb_get_from_bo bo k).2.1 = { bo with userData := some fb } ∧
    rmFBIds (drm_fb_get_from_bo bo k).2.2 = [] ∧
    setUserDataCount (drm_fb_get_from_bo bo k).2.2 = 1 := by
  by_cases hm : bo.modifier = 0 <;>
    rcases hw : k.withModRes with _ | i <;>
    rcases hl : k.legacyRes with _ | j <;>
    simp_all [drm_fb_get_from_bo, rmFBIds, setUserDataCount]

/-! ### Claims C4, C5, C6 -/

/-- C4: resolving the same buffer twice via drm_fb_get_from_bo returns the
    identical presentation handle, and the kernel framebuffer-creation call
    is performed exactly once — the second call is a pure cache hit that
    performs no kernel call at all.  The first resolution is taken on its
    modifier-aware happy path; the fallback path is the subject of C5. -/
theorem c4_resolve_cache_hit (bo : GbmBo) (k1 k2 : FbKernel) (i : Nat)
    (h0 : bo.userData = none) (h1 : k1.withModRes = some i) :
    (drm_fb_get_from_bo bo k1).1 = some ⟨bo.boId, i⟩ ∧
    (drm_fb_get_from_bo (drm_fb_get_from_bo bo k1).2.1 k2).1 =
      (drm_fb_get_from_bo bo k1).1 ∧
    (drm_fb_get_from_bo (drm_fb_get_from_bo bo k1).2.1 k2).2.2 = [] ∧
    kernelCreateCalls ((drm_fb_get_from_bo bo k1).2.2 ++
      (drm_fb_get_from_bo (drm_fb_get_from_bo bo k1).2.1 k2).2.2) = 1 := by
  simp [drm_fb_get_from_bo, h0, h1, kernelCreateCalls]

/-- C4 witness: both hypotheses hold at a concrete fresh buffer and a
    succeeding kernel oracle, and the theorem applies there. -/
theorem c4_witness :
    boW.userData = none ∧ (⟨some 9, none⟩ : FbKernel).withModRes = some 9 ∧
    ((drm_fb_get_from_bo boW ⟨some 9, none⟩).1 = some ⟨boW.boId, 9⟩ ∧
     (drm_fb_get_from_bo (drm_fb_get_from_bo boW ⟨some 9, none⟩).2.1 ⟨none, none⟩).1 =
       (drm_fb_get_from_bo boW ⟨some 9, none⟩).1 ∧
     (drm_fb_get_from_bo (drm_fb_get_from_bo boW ⟨some 9, none⟩).2.1 ⟨none, none⟩).2.2 = [] ∧
     kernelCreateCalls ((drm_fb_get_from_bo boW ⟨some 9, none⟩).2.2 ++
       (drm_fb_get_from_bo (drm_fb_get_from_bo boW ⟨some 9, none⟩).2.1 ⟨none, none⟩).2.2) = 1) :=
  ⟨rfl, rfl, c4_resolve_cache_hit boW ⟨some 9, none⟩ ⟨none, none⟩ 9 rfl rfl⟩

/-- C5: for a fresh buffer carrying a non-trivial modifier, resolution first
    attempts modifier-aware creation with the DRM_MODE_FB_MODIFIERS flag
    set; when that attempt fails it emits the hard warning and retries the
    legacy single-plane path; if the retry succeeds the handle is attached,
    and if the retry also fails the operation returns failure with the
    partially-built record freed and nothing cached on the buffer. -/
theorem c5_modifier_fallback (bo : GbmBo) (k : FbKernel)
    (h0 : bo.userData = none) (h1 : bo.modifier ≠ 0) (h2 : k.withModRes = none) :
    (∀ j, k.legacyRes = some j →
      (drm_fb_get_from_bo bo k).1 = some ⟨bo.boId, j⟩ ∧
      (drm_fb_get_from_bo bo k).2.2 =
        [FbAct.addFB2WithModifiers DRM_MODE_FB_MODIFIERS, FbAct.warnModifiersFailed,
         FbAct.addFB2, FbAct.setUserData]) ∧
    (k.legacyRes = none →
      (drm_fb_get_from_bo bo k).1 = none ∧
      (drm_fb_get_from_bo bo k).2.1.userData = none ∧
      (drm_fb_get_from_bo bo k).2.2 =
        [FbAct.addFB2WithModifiers DRM_MODE_FB_MODIFIERS, FbAct.warnModifiersFailed,
         FbAct.addFB2, FbAct.logCreateFailed, FbAct.freeFb]) := by
  constructor
  · intro j hj
    simp [drm_fb_get_from_bo, h0, h1, h2, hj, DRM_MODE_FB_MODIFIERS]
  · intro hj
    simp [drm_fb_get_from_bo, h0, h1, h2, hj, DRM_MODE_FB_MODIFIERS]

/-- C5 witness: the hypotheses hold at a concrete modifier-carrying buffer
    with both kernel attempts failing, and the theorem applies there. -/
theorem c5_witness :
    boWmod.userData = none ∧ boWmod.modifier ≠ 0 ∧
    (⟨none, none⟩ : FbKernel).withModRes = none ∧
    ((⟨none, none⟩ : FbKernel).legacyRes = none →
      (drm_fb_get_from_bo boWmod ⟨none, none⟩).1 = none ∧
      (drm_fb_get_from_bo boWmod ⟨none, none⟩).2.1.userData = none ∧
      (drm_fb_get_from_bo boWmod ⟨none, none⟩).2.2 =
        [FbAct.addFB2WithModifiers DRM_MODE_FB_MODIFIERS, FbAct.warnModifiersFailed,
         FbAct.addFB2, FbAct.logCreateFailed, FbAct.freeFb]) :=
  ⟨rfl, by decide, rfl,
   (c5_modifier_fallback boWmod ⟨none, none⟩ rfl (by decide) rfl).2⟩

/-- C6: once a buffer has successfully acquired a presentation handle, no
    teardown call happens during any number of further resolutions (never
    before destruction), the destroy callback is registered exactly once
    (on the first successful creation), and destroying the buffer tears the
    kernel framebuffer down exactly once. -/
theorem c6_teardown_exactly_once (bo : GbmBo) (k : FbKernel) (ks : List FbKernel)
    (fb : DrmFbRec) (h0 : bo.userData = none)
    (h1 : (drm_fb_get_from_bo bo k).1 = some fb) (h2 : fb.fb_id ≠ 0) :
    rmFBIds (resolveList bo (k :: ks)).2 = [] ∧
    setUserDataCount (resolveList bo (k :: ks)).2 = 1 ∧
    rmFBIds (destroyGbmBo (resolveList bo (k :: ks)).1) = [fb.fb_id] := by
  obtain ⟨hbo, hrm, hsud⟩ := resolve_fresh_success bo k fb h0 h1
  have hcached : (drm_fb_get_from_bo bo k).2.1.userData = some fb := by
    rw [hbo]
  have hks := resolveList_cached ks (drm_fb_get_from_bo bo k).2.1 fb hcached
  simp only [resolveList, hks, List.append_nil]
  exact ⟨hrm, hsud, by
    simp [destroyGbmBo, hcached, drm_fb_destroy_callback, h2, rmFBIds]⟩

/-- C6 witness: the hypotheses hold at a concrete buffer whose first
    resolution succeeds with framebuffer id 9, followed by one further
    resolution, and the theorem applies there. -/
theorem c6_witness :
    boW.userData = none ∧
    (drm_fb_get_from_bo boW ⟨some 9, none⟩).1 = some ⟨3, 9⟩ ∧
    ((⟨3, 9⟩ : DrmFbRec).fb_id ≠ 0) ∧
    (rmFBIds (resolveList boW (⟨some 9, none⟩ :: [⟨some 12, some 13⟩])).2 = [] ∧
     setUserDataCount (resolveList boW (⟨some 9, none⟩ :: [⟨some 12, some 13⟩])).2 = 1 ∧
     rmFBIds (destroyGbmBo (resolveList boW (⟨some 9, none⟩ :: [⟨some 12, some 13⟩])).1) = [9]) :=
  ⟨rfl, by decide, by decide,
   c6_teardown_exactly_once boW ⟨some 9, none⟩ [⟨some 12, some 13⟩] ⟨3, 9⟩ rfl
     (by decide) (by decide)⟩

/-! ### Helper lemmas: session traces -/

theorem chkGo_append (l1 l2 : List Act) :
    ∀ p, chkGo p (l1 ++ l2) = (chkGo p l1).bind fun q => chkGo q l2 := by
  induction l1 with
  | nil => intro p; simp [chkGo]
  | cons a t ih => intro p; cases a <;> cases p <;> simp [chkGo, ih]

theorem c2go_append (l1 l2 : List Act) :
    ∀ b, c2go b (l1 ++ l2) = (c2go b l1).bind fun q => c2go q l2 := by
  induction l1 with
  | nil => intro b; simp [c2go]
  | cons a t ih =>
    intro b
    cases a <;> simp [c2go, ih]
    split <;> simp [ih]

theorem c10go_append (l1 l2 : List Act) :
    ∀ b, c10go b (l1 ++ l2) = (c10go b l1).bind fun q => c10go q l2 := by
  induction l1 with
  | nil => intro b; simp [c10go]
  | cons a t ih =>
    intro b
    cases a <;> simp [c10go, ih]
    split <;> simp [ih]

theorem swapStep_c10 (s : Chain) (o : SwapIn) :
    c10go s.modeset (swapBuffersStep s o).2 = some (swapBuffersStep s o).1.modeset := by
  obtain ⟨vis, ms, fc, bo, kin, kout⟩ := s
  obtain ⟨ifd, nb, fbOk, fbId, ui, cok, off⟩ := o
  cases kout <;> cases nb <;> cases fbOk <;> cases ui <;> cases cok <;> cases bo <;>
    simp [swapBuffersStep, c10go]

theorem swapStep_c2 (s : Chain) (o : SwapIn) :
    c2go s.modeset (swapBuffersStep s o).2 = some (swapBuffersStep s o).1.modeset := by
  obtain ⟨vis, ms, fc, bo, kin, kout⟩ := s
  obtain ⟨ifd, nb, fbOk, fbId, ui, cok, off⟩ := o
  cases kout <;> cases nb <;> cases fbOk <;> cases ui <;> cases cok <;> cases bo <;>
    simp [swapBuffersStep, c2go]

theorem swapStep_visible (s : Chain) (o : SwapIn) :
    (swapBuffersStep s o).1.visible = s.visible := by
  obtain ⟨vis, ms, fc, bo, kin, kout⟩ := s
  obtain ⟨ifd, nb, fbOk, fbId, ui, cok, off⟩ := o
  cases kout <;> cases nb <;> cases fbOk <;> cases ui <;> cases cok <;> cases bo <;>
    simp [swapBuffersStep]

theorem swapStep_chk (s : Chain) (o : SwapIn) (nb : Nat)
    (h1 : o.nextBo = some nb) (h2 : o.fbOk = true) :
    chkGo s.kms_out_fence (swapBuffersStep s o).2 =
      some (swapBuffersStep s o).1.kms_out_fence := by
  obtain ⟨vis, ms, fc, bo, kin, kout⟩ := s
  obtain ⟨ifd, nb', fbOk, fbId, ui, cok, off⟩ := o
  simp only at h1 h2
  subst h1; subst h2
  cases kout <;> cases ui <;> cases cok <;> cases bo <;>
    simp [swapBuffersStep, chkGo]

theorem showStep_c10 (s : Chain) (o : ShowIn) :
    c10go s.modeset (showStep s o).2 = some (showStep s o).1.modeset := by
  obtain ⟨vis, ms, fc, bo, kin, kout⟩ := s
  obtain ⟨e, f⟩ := o
  cases vis <;> cases e <;> cases f <;> simp [showStep, c10go]

theorem showStep_visible_noop (s : Chain) (o : ShowIn) (h : s.visible = true) :
    showStep s o = (s, []) := by
  simp [showStep, h]

theorem showStep_chk (s : Chain) (o : ShowIn) :
    chkGo s.kms_out_fence (showStep s o).2 = some (showStep s o).1.kms_out_fence := by
  obtain ⟨vis, ms, fc, bo, kin, kout⟩ := s
  obtain ⟨e, f⟩ := o
  cases vis <;> cases e <;> cases f <;> simp [showStep, chkGo]

theorem c10go_run (evs : List Ev) : ∀ s : Chain,
    c10go s.modeset (runEvs s evs).2 = some (runEvs s evs).1.modeset := by
  induction evs with
  | nil => intro s; simp [runEvs, c10go]
  | cons e rest ih =>
    intro s
    cases e with
    | evShow o =>
      simp only [runEvs]
      rw [c10go_append, showStep_c10]
      simpa using ih (showStep s o).1
    | evSwap o =>
      simp only [runEvs]
      rw [c10go_append, swapStep_c10]
      simpa using ih (swapBuffersStep s o).1

theorem c2go_run (evs : List Ev) : ∀ s : Chain, s.visible = true →
    c2go s.modeset (runEvs s evs).2 = some (runEvs s evs).1.modeset := by
  induction evs with
  | nil => intro s _; simp [runEvs, c2go]
  | cons e rest ih =>
    intro s hv
    cases e with
    | evShow o =>
      simp only [runEvs, showStep_visible_noop s o hv]
      simpa using ih s hv
    | evSwap o =>
      simp only [runEvs]
      rw [c2go_append, swapStep_c2]
      simpa using ih (swapBuffersStep s o).1 ((swapStep_visible s o).trans hv)

theorem chkGo_run (evs : List Ev) : ∀ s : Chain,
    (∀ o ∈ swapOracles evs, o.nextBo.isSome = true ∧ o.fbOk = true) →
    chkGo s.kms_out_fence (runEvs s evs).2 = some (runEvs s evs).1.kms_out_fence := by
  induction evs with
  | nil => intro s _; simp [runEvs, chkGo]
  | cons e rest ih =>
    intro s h
    cases e with
    | evShow o =>
      simp only [runEvs]
      rw [chkGo_append, showStep_chk]
      have hrest : ∀ o2 ∈ swapOracles rest, o2.nextBo.isSome = true ∧ o2.fbOk = true := by
        intro o2 h2; exact h o2 (by simpa [swapOracles] using h2)
      simpa using ih (showStep s o).1 hrest
    | evSwap o =>
      have ho := h o (by simp [swapOracles])
      rcases Option.isSome_iff_exists.mp ho.1 with ⟨nb, hnb⟩
      simp only [runEvs]
      rw [chkGo_append, swapStep_chk s o nb hnb ho.2]
      have hrest : ∀ o2 ∈ swapOracles rest, o2.nextBo.isSome = true ∧ o2.fbOk = true := by
        intro o2 h2; exact h o2 (by simp [swapOracles, h2])
      simpa using ih (swapBuffersStep s o).1 hrest

theorem releasedBos_append (l1 l2 : List Act) :
    releasedBos (l1 ++ l2) = releasedBos l1 ++ releasedBos l2 := by
  simp [releasedBos]

theorem displayedBos_append (l1 l2 : List Act) :
    displayedBos (l1 ++ l2) = displayedBos l1 ++ displayedBos l2 := by
  simp [displayedBos]

theorem swapStep_bo_eq (s : Chain) (o : SwapIn) :
    (swapBuffersStep s o).1.bo =
      if reachesSuccess o = true then o.nextBo else s.bo := by
  obtain ⟨vis, ms, fc, bo, kin, kout⟩ := s
  obtain ⟨ifd, nb, fbOk, fbId, ui, cok, off⟩ := o
  cases kout <;> cases nb <;> cases fbOk <;> cases ui <;> cases cok <;> cases bo <;>
    simp [swapBuffersStep, reachesSuccess]

theorem swapStep_released_eq (s : Chain) (o : SwapIn) :
    releasedBos (swapBuffersStep s o).2 =
      if reachesSuccess o = true then s.bo.toList else [] := by
  obtain ⟨vis, ms, fc, bo, kin, kout⟩ := s
  obtain ⟨ifd, nb, fbOk, fbId, ui, cok, off⟩ := o
  cases kout <;> cases nb <;> cases fbOk <;> cases ui <;> cases cok <;> cases bo <;>
    simp [swapBuffersStep, reachesSuccess, releasedBos]

theorem swapStep_displayed_eq (s : Chain) (o : SwapIn) :
    displayedBos (swapBuffersStep s o).2 =
      if reachesSuccess o = true then o.nextBo.toList else [] := by
  obtain ⟨vis, ms, fc, bo, kin, kout⟩ := s
  obtain ⟨ifd, nb, fbOk, fbId, ui, cok, off⟩ := o
  cases kout <;> cases nb <;> cases fbOk <;> cases ui <;> cases cok <;> cases bo <;>
    simp [swapBuffersStep, reachesSuccess, displayedBos]

theorem showStep_bo_eq (s : Chain) (o : ShowIn) : (showStep s o).1.bo = s.bo := by
  obtain ⟨e, f⟩ := o
  cases hv : s.visible <;> cases e <;> cases f <;> simp [showStep, hv]

theorem showStep_released_eq (s : Chain) (o : ShowIn) :
    releasedBos (showStep s o).2 = [] := by
  obtain ⟨e, f⟩ := o
  cases hv : s.visible <;> cases e <;> cases f <;> simp [showStep, hv, releasedBos]

theorem showStep_displayed_eq (s : Chain) (o : ShowIn) :
    displayedBos (showStep s o).2 = [] := by
  obtain ⟨e, f⟩ := o
  cases hv : s.visible <;> cases e <;> cases f <;> simp [showStep, hv, displayedBos]

/-- Any buffer released or recorded as displayed during a session was either
    displayed at session entry or locked by a swapBuffers call that reached
    the success path. -/
theorem released_displayed_from (evs : List Ev) : ∀ (s : Chain) (b : Nat),
    (b ∈ releasedBos (runEvs s evs).2 ∨ b ∈ displayedBos (runEvs s evs).2) →
    s.bo = some b ∨
      ∃ o ∈ swapOracles evs, o.nextBo = some b ∧ reachesSuccess o = true := by
  induction evs with
  | nil => intro s b h; simp [runEvs, releasedBos, displayedBos] at h
  | cons e rest ih =>
    intro s b h
    cases e with
    | evShow o =>
      simp only [runEvs, releasedBos_append, displayedBos_append, List.mem_append,
        showStep_released_eq, showStep_displayed_eq, List.not_mem_nil, false_or] at h
      have := ih (showStep s o).1 b h
      rw [showStep_bo_eq] at this
      simpa [swapOracles] using this
    | evSwap o =>
      simp only [runEvs, releasedBos_append, displayedBos_append, List.mem_append] at h
      rw [swapStep_released_eq, swapStep_displayed_eq] at h
      by_cases hs : reachesSuccess o = true
      · simp only [hs, if_pos] at h
        rcases h with (h | h) | (h | h)
        · exact Or.inl (by simpa using h)
        · have := ih (swapBuffersStep s o).1 b (Or.inl h)
          rw [swapStep_bo_eq, if_pos hs] at this
          rcases this with hnb | ⟨o2, ho2, hp⟩
          · exact Or.inr ⟨o, by simp [swapOracles], hnb, hs⟩
          · exact Or.inr ⟨o2, by simp [swapOracles, ho2], hp⟩
        · exact Or.inr ⟨o, by simp [swapOracles], by simpa using h, hs⟩
        · have := ih (swapBuffersStep s o).1 b (Or.inr h)
          rw [swapStep_bo_eq, if_pos hs] at this
          rcases this with hnb | ⟨o2, ho2, hp⟩
          · exact Or.inr ⟨o, by simp [swapOracles], hnb, hs⟩
          · exact Or.inr ⟨o2, by simp [swapOracles, ho2], hp⟩
      · simp only [hs, if_neg, if_false] at h
        rcases h with (h | h) | (h | h) <;>
          first
          | exact absurd h (List.not_mem_nil b)
          | · have := ih (swapBuffersStep s o).1 b (by tauto)
              rw [swapStep_bo_eq, if_neg hs] at this
              rcases this with hbo | ⟨o2, ho2, hp⟩
              · exact Or.inl hbo
              · exact Or.inr ⟨o2, by simp [swapOracles, ho2], hp⟩

/-! ### Claims C1, C2, C3, C7, C8, C9, C10 -/

/-- C1 counterexample: the claim as stated — in every session, a commit is
    never submitted while the fence of the previous successful commit has
    not been CPU-waited to signaled state (chkGo accepting the log) — fails
    on evsC1bad: the middle call imports the first commit's out-fence, then
    skips its frame at buffer-lock time before reaching the CPU wait, and
    the next call submits its commit with that fence never waited on. -/
theorem c1_counterexample :
    ¬ ∀ evs : List Ev, (chkGo none (runEvs Chain.init evs).2).isSome = true := by
  intro h
  exact absurd (h evsC1bad) (by decide)

/-- C1 amended: in any session in which no swapBuffers call skips its frame
    between importing the previous out-fence and the CPU wait (that is,
    every call locks a buffer and resolves its handle), each commit is
    submitted only after the previous commit's completion fence has been
    imported and CPU-waited to signaled state, so at most one display-side
    completion fence is outstanding at any instant. -/
theorem c1_amended (evs : List Ev)
    (h : ∀ o ∈ swapOracles evs, o.nextBo.isSome = true ∧ o.fbOk = true) :
    (chkGo none (runEvs Chain.init evs).2).isSome = true := by
  have h2 := chkGo_run evs Chain.init h
  simp only [show Chain.init.kms_out_fence = none from rfl] at h2
  simp [h2]

/-- C1 witness: the amended hypothesis holds on a clean two-frame session,
    and the amended theorem applies there. -/
theorem c1_witness :
    (∀ o ∈ swapOracles evsOkTwo, o.nextBo.isSome = true ∧ o.fbOk = true) ∧
    (chkGo none (runEvs Chain.init evsOkTwo).2).isSome = true :=
  ⟨by decide, c1_amended evsOkTwo (by decide)⟩

/-- C2: in a session whose show() call completed its extension checks
    before any swapBuffers call, the DRM_MODE_ATOMIC_ALLOW_MODESET flag is
    carried by exactly the commits up to and including the first successful
    one — true for the first successful commit and for the failed commits
    before it, false for every commit after it for the rest of the session,
    across any pattern of per-frame failures (c2go accepting the log with
    expected initial flag true). -/
theorem c2_modeset_exactly_first_success (o : ShowIn) (evs : List Ev)
    (h1 : o.fenceExtOk = true) (h2 : o.fnsOk = true) :
    (c2go true (runEvs Chain.init (Ev.evShow o :: evs)).2).isSome = true := by
  have hstep : showStep Chain.init o =
      ({ Chain.init with modeset := true, visible := true }, [Act.showComplete]) := by
    simp [showStep, Chain.init, h1, h2]
  have hrun := c2go_run evs ({ Chain.init with modeset := true, visible := true }) rfl
  simp only [runEvs, hstep]
  simpa [c2go] using congrArg Option.isSome hrun

/-- C2 witness: the hypotheses hold for a concrete completing show() call
    followed by two successful frames, and the theorem applies there. -/
theorem c2_witness :
    showOk.fenceExtOk = true ∧ showOk.fnsOk = true ∧
    (c2go true (runEvs Chain.init (Ev.evShow showOk :: [Ev.evSwap swA, Ev.evSwap swB])).2).isSome = true :=
  ⟨rfl, rfl, c2_modeset_exactly_first_success showOk [Ev.evSwap swA, Ev.evSwap swB] rfl rfl⟩

/-- C3 counterexample: with the plane table missing every plane property
    (in particular FB_ID) and the connector table missing CRTC_ID, building
    the transaction does not fail: the commit is still submitted (ret 0),
    with connector CRTC_ID added under the bogus property id 0 and with no
    plane property in the request at all — against the claim that any
    missing (object, name) pair is a hard error with the commit never
    submitted. -/
theorem c3_counterexample :
    findPropId envC3.planeProps PName.FB_ID = none ∧
    findPropId envC3.connProps PName.CRTC_ID = none ∧
    (drm_atomic_commit envC3 42 true (some 9)).submitted = true ∧
    (drm_atomic_commit envC3 42 true (some 9)).ret = 0 ∧
    (KObj.connector, 0, 41) ∈ (drm_atomic_commit envC3 42 true (some 9)).req ∧
    ∀ e ∈ (drm_atomic_commit envC3 42 true (some 9)).req, e.1 ≠ KObj.plane := by
  decide

/-- C3 amended: only the two crtc modeset properties are actually guarded:
    if MODE_ID or ACTIVE is missing from the crtc property table, building a
    modeset transaction fails with -1 and the commit is not submitted.
    (A missing connector CRTC_ID slips through with bogus property id 0
    because add_connector_property initializes prop_id to 0, and missing
    plane or fence properties are only logged, the commit being submitted
    without them.) -/
theorem c3_amended (env : CommitEnv) (fb : Nat) (f : Option Nat)
    (h : findPropId env.crtcProps PName.MODE_ID = none ∨
         findPropId env.crtcProps PName.ACTIVE = none) :
    (drm_atomic_commit env fb true f).submitted = false ∧
    (drm_atomic_commit env fb true f).ret = -1 := by
  have hc : (add_connector_property env [] PName.CRTC_ID env.crtc_id).1 = 0 := by
    unfold add_connector_property
    rcases findPropId env.connProps PName.CRTC_ID <;> simp
  rcases hb : env.blobRes with _ | blob
  · simp [drm_atomic_commit, hc, hb]
  · rcases h with h | h
    · simp [drm_atomic_commit, hc, hb, add_crtc_property, h]
    · rcases hm : findPropId env.crtcProps PName.MODE_ID with _ | pid
      · simp [drm_atomic_commit, hc, hb, add_crtc_property, hm]
      · simp [drm_atomic_commit, hc, hb, add_crtc_property, hm, h]

/-- C3 witness: the amended hypothesis holds for a concrete environment
    whose crtc table is missing MODE_ID, and the amended theorem applies. -/
theorem c3_witness :
    (findPropId envC3w.crtcProps PName.MODE_ID = none ∨
     findPropId envC3w.crtcProps PName.ACTIVE = none) ∧
    (drm_atomic_commit envC3w 5 true none).submitted = false ∧
    (drm_atomic_commit envC3w 5 true none).ret = -1 :=
  ⟨Or.inl (by decide), (c3_amended envC3w 5 none (Or.inl (by decide))).1,
   (c3_amended envC3w 5 none (Or.inl (by decide))).2⟩

/-- C7: a swapBuffers call that ends in a recoverable per-frame failure —
    buffer acquisition fails, handle resolution fails, or the commit is
    rejected — leaves the currently displayed buffer unchanged, releases no
    buffer, and still advances the frame counter by one. -/
theorem c7_per_frame_failure (s : Chain) (o : SwapIn)
    (h : o.nextBo = none ∨ o.fbOk = false ∨
         (o.userInput = false ∧ o.commitOk = false)) :
    (swapBuffersStep s o).1.bo = s.bo ∧
    (swapBuffersStep s o).1.frame_count = s.frame_count + 1 ∧
    releasedBos (swapBuffersStep s o).2 = [] := by
  obtain ⟨vis, ms, fc, bo, kin, kout⟩ := s
  obtain ⟨ifd, nb, fbOk, fbId, ui, cok, off⟩ := o
  cases nb <;> cases fbOk <;> cases ui <;> cases cok <;> cases kout <;> cases bo <;>
    simp_all [swapBuffersStep, releasedBos]

/-- C7 witness: the hypothesis holds for a concrete buffer-lock failure,
    and the theorem applies there. -/
theorem c7_witness :
    (swLockFail.nextBo = none ∨ swLockFail.fbOk = false ∨
     (swLockFail.userInput = false ∧ swLockFail.commitOk = false)) ∧
    ((swapBuffersStep Chain.init swLockFail).1.bo = Chain.init.bo ∧
     (swapBuffersStep Chain.init swLockFail).1.frame_count = Chain.init.frame_count + 1 ∧
     releasedBos (swapBuffersStep Chain.init swLockFail).2 = []) :=
  ⟨Or.inl rfl, c7_per_frame_failure Chain.init swLockFail (Or.inl rfl)⟩

/-- C8 counterexample: the claim as stated — the stored in-fence fd is
    invalidated for every outcome of the commit — fails on a call whose
    commit is rejected: drm_atomic_commit only closes and resets
    kms_in_fence_fd on success, so after a failed commit the caller still
    holds the stale fd (14 here). -/
theorem c8_counterexample :
    ¬ ∀ (s : Chain) (o : SwapIn),
        o.nextBo.isSome = true → o.fbOk = true → o.userInput = false →
        (swapBuffersStep s o).1.kms_in_fence = none := by
  intro h
  exact absurd (h Chain.init swCommitFail rfl rfl rfl) (by decide)

/-- C8 amended: the out-fence fd handed to the fence import is invalidated
    unconditionally — after any call, the stored out-fence is exactly the
    one written by a successful commit of that call, the previously stored
    fd never surviving — while the in-fence fd handed to the kernel commit
    is closed and invalidated only when the commit succeeds; after a failed
    commit the caller's stored copy keeps the stale value. -/
theorem c8_amended (s : Chain) (o : SwapIn) :
    (reachesSuccess o = true → (swapBuffersStep s o).1.kms_in_fence = none) ∧
    (swapBuffersStep s o).1.kms_out_fence =
      (if reachesSuccess o = true then some o.outFenceFd else none) := by
  obtain ⟨vis, ms, fc, bo, kin, kout⟩ := s
  obtain ⟨ifd, nb, fbOk, fbId, ui, cok, off⟩ := o
  cases nb <;> cases fbOk <;> cases ui <;> cases cok <;> cases kout <;> cases bo <;>
    simp [swapBuffersStep, reachesSuccess]

/-- C8 witness: the amended theorem applied to a concrete successful call:
    the in-fence is invalidated and the out-fence slot holds exactly the
    newly returned fence. -/
theorem c8_witness :
    reachesSuccess swA = true ∧
    (swapBuffersStep Chain.init swA).1.kms_in_fence = none ∧
    (swapBuffersStep Chain.init swA).1.kms_out_fence =
      (if reachesSuccess swA = true then some swA.outFenceFd else none) :=
  ⟨rfl, (c8_amended Chain.init swA).1 rfl, (c8_amended Chain.init swA).2⟩

/-- C9: in chain-surface mode, a buffer locked by a call that then skips
    its frame (handle-resolution failure, pending user input, or a rejected
    commit) — and never locked by any call reaching the success path — is
    never released back to the surface and never recorded as the displayed
    buffer; moreover every buffer that is ever released was locked and
    displayed by a call whose commit succeeded. -/
theorem c9_skipped_lock_never_released (evs : List Ev) (b : Nat)
    (_h1 : ∃ o ∈ swapOracles evs, o.nextBo = some b ∧ skipsAfterLock o = true)
    (h2 : ∀ o ∈ swapOracles evs, o.nextBo = some b → reachesSuccess o = false) :
    b ∉ releasedBos (runEvs Chain.init evs).2 ∧
    b ∉ displayedBos (runEvs Chain.init evs).2 ∧
    ∀ b2 ∈ releasedBos (runEvs Chain.init evs).2,
      ∃ o ∈ swapOracles evs, o.nextBo = some b2 ∧ reachesSuccess o = true := by
  refine ⟨?_, ?_, ?_⟩
  · intro hmem
    rcases released_displayed_from evs Chain.init b (Or.inl hmem) with hb | ⟨o, ho, hnb, hrs⟩
    · simp [Chain.init] at hb
    · exact absurd hrs (by simp [h2 o ho hnb])
  · intro hmem
    rcases released_displayed_from evs Chain.init b (Or.inr hmem) with hb | ⟨o, ho, hnb, hrs⟩
    · simp [Chain.init] at hb
    · exact absurd hrs (by simp [h2 o ho hnb])
  · intro b2 hmem
    rcases released_displayed_from evs Chain.init b2 (Or.inl hmem) with hb | h
    · simp [Chain.init] at hb
    · exact h

/-- C9 witness: on evsC9w, buffer 4 is locked only by the skipping call,
    and the theorem applies with b = 4. -/
theorem c9_witness :
    (∃ o ∈ swapOracles evsC9w, o.nextBo = some 4 ∧ skipsAfterLock o = true) ∧
    (∀ o ∈ swapOracles evsC9w, o.nextBo = some 4 → reachesSuccess o = false) ∧
    (4 ∉ releasedBos (runEvs Chain.init evsC9w).2 ∧
     4 ∉ displayedBos (runEvs Chain.init evsC9w).2 ∧
     ∀ b2 ∈ releasedBos (runEvs Chain.init evsC9w).2,
       ∃ o ∈ swapOracles evsC9w, o.nextBo = some b2 ∧ reachesSuccess o = true) :=
  ⟨by decide, by decide,
   c9_skipped_lock_never_released evsC9w 4 (by decide) (by decide)⟩

/-- C10: in every session, a commit carries the modeset flag exactly when
    show() has previously run to completion (past its extension checks) and
    no commit has succeeded since (c10go, whose permission bit starts
    false, is set by a completed show and cleared by a successful commit,
    accepts every session log); in particular with no completed show() in
    the session no commit ever carries the modeset flag — swapBuffers alone
    never sets it. -/
theorem c10_modeset_gating (evs : List Ev) :
    (c10go false (runEvs Chain.init evs).2).isSome = true := by
  have h := c10go_run evs Chain.init
  simp only [show Chain.init.modeset = false from rfl] at h
  simp [h]
